import Mathlib

/-!
Verification of the tally backend (tabular aggregation engine, status state
machine, control/document/response services) against its specification.

The Python services are shallowly embedded as Lean functions over plain
records.  Stored dictionaries become structures, optional dictionary entries
become `Option` fields, raising code paths become `Except`, `datetime`
timestamps become `Nat`, Python floats become `ℚ`, and `round(x, n)` becomes
`pyRound1` / `pyRound2`.
-/

namespace Tally

/-- Embeds `ProcessingStatus` from `app/schemas.py` (lines 50-66). -/
inductive ProcessingStatus
  | pending
  | processing
  | completed
  | failed
  | regenerating
deriving DecidableEq, Repr, Fintype

/-- Embeds `ProcessingStatus.is_terminal_status`: `status in {COMPLETED, FAILED}`. -/
def ProcessingStatus.is_terminal_status (s : ProcessingStatus) : Bool :=
  s == .completed || s == .failed

/-- Embeds `ProcessingStatus.is_active_status`: `status in {PROCESSING, REGENERATING}`. -/
def ProcessingStatus.is_active_status (s : ProcessingStatus) : Bool :=
  s == .processing || s == .regenerating

/-- Embeds the `valid_transitions` dictionary of
`AdvancedFieldValidators.validate_processing_status_transition`
(`app/services/validation_service.py` lines 336-342). -/
def valid_transitions (s : ProcessingStatus) : List ProcessingStatus :=
  match s with
  | .pending => [.processing, .failed]
  | .processing => [.completed, .failed, .regenerating]
  | .completed => [.regenerating]
  | .failed => [.processing, .regenerating]
  | .regenerating => [.completed, .failed]

/-- Embeds `validate_processing_status_transition`
(`app/services/validation_service.py` lines 330-347): returns the new status
when the transition is in `valid_transitions`, otherwise raises a
`ValueError` naming both states, modelled as an `Except.error` carrying
the (current, new) pair. -/
def validate_processing_status_transition (cur next : ProcessingStatus) :
    Except (ProcessingStatus × ProcessingStatus) ProcessingStatus :=
  if next ∈ valid_transitions cur then .ok next else .error (cur, next)

/-- The legal transition table exactly as written in spec section 4.3
(for comparison with the table embedded from the source). -/
def specLegalTransitions : List (ProcessingStatus × ProcessingStatus) :=
  [(.pending, .processing), (.pending, .failed),
   (.processing, .completed), (.processing, .failed), (.processing, .regenerating),
   (.completed, .regenerating),
   (.failed, .processing), (.failed, .regenerating),
   (.regenerating, .completed), (.regenerating, .failed)]

/-- Executable floor of a rational number. -/
def ratFloor (q : ℚ) : ℤ := q.num / (q.den : ℤ)

/-- Round-half-to-even on exact rationals, modelling Python `round` to the
nearest integer. -/
def roundHalfEven (q : ℚ) : ℤ :=
  let f := ratFloor q
  let r := q - f
  if r < 1/2 then f
  else if 1/2 < r then f + 1
  else if f % 2 = 0 then f else f + 1

/-- Model of Python `round(q, 1)` on exact rationals. -/
def pyRound1 (q : ℚ) : ℚ := (roundHalfEven (q * 10) : ℤ) / 10

/-- Model of Python `round(q, 2)` on exact rationals. -/
def pyRound2 (q : ℚ) : ℚ := (roundHalfEven (q * 100) : ℤ) / 100

/-- Python `str.lower()`, executable character by character. -/
def strLower (s : String) : String :=
  String.mk (s.data.map Char.toLower)

/-- Python `str.strip()`: drop leading and trailing whitespace. -/
def strTrim (s : String) : String :=
  String.mk (((s.data.dropWhile Char.isWhitespace).reverse.dropWhile
    Char.isWhitespace).reverse)

/-- Python `str.endswith(suffix)`. -/
def strEndsWith (s suf : String) : Bool :=
  decide (suf.data <:+ s.data)

/-- Python substring test `needle in hay`; lowering is kept at the call
sites. -/
def strContains (hay needle : String) : Bool :=
  decide (needle.toList <:+: hay.toList)

/-- Embeds `confidence_indicators` from `AIService._calculate_confidence_score`
(`app/services/ai_service.py` lines 159-165). -/
def confidence_indicators : List String :=
  ["clearly states", "explicitly mentions", "directly addresses",
   "specifically outlines", "demonstrates"]

/-- Embeds `uncertainty_indicators` from `AIService._calculate_confidence_score`
(`app/services/ai_service.py` lines 166-173). -/
def uncertainty_indicators : List String :=
  ["unclear", "may", "might", "possibly", "cannot determine",
   "insufficient information"]

/-- Embeds `AIService._calculate_confidence_score`
(`app/services/ai_service.py` lines 156-185). -/
def calculate_confidence_score (response_text : String) : ℚ :=
  let confidence_count :=
    confidence_indicators.countP (fun i => strContains (strLower response_text) (strLower i))
  let uncertainty_count :=
    uncertainty_indicators.countP (fun i => strContains (strLower response_text) (strLower i))
  let total_indicators := confidence_indicators.length + uncertainty_indicators.length
  let base_score : ℚ := ((confidence_count : ℚ) - (uncertainty_count : ℚ)) / total_indicators
  let normalized_score := (base_score + 1) / 2
  pyRound2 (max (1/10) (min (9/10) normalized_score))

/-- Insert into a descending-sorted list, keeping the inserted element before
later elements with an equal key. -/
def insertByDesc (key : α → ℕ) (x : α) : List α → List α
  | [] => [x]
  | y :: ys => if key x < key y then y :: insertByDesc key x ys else x :: y :: ys

/-- Stable sort by a key, descending: the model of Python
`sorted(xs, key=..., reverse=True)`. -/
def sortByDesc (key : α → ℕ) : List α → List α
  | [] => []
  | x :: xs => insertByDesc key x (sortByDesc key xs)

/-- A stored control record (`ControlResponse` in `app/schemas.py` lines
83-152): `description` is optional, timestamps are modelled as `ℕ`. -/
structure ControlRec where
  id : String
  title : String
  description : Option String
  prompt : String
  is_active : Bool
  created_at : ℕ
  updated_at : Option ℕ
deriving DecidableEq, Repr

/-- A stored document record, as read back from the `documents` bucket by the
tabular service (only `id` and the `created_at` sort key are consulted). -/
structure DocRec where
  id : String
  created_at : ℕ
deriving DecidableEq, Repr

/-- A stored AI-response record as read back from the `ai_responses` bucket:
the tabular service accesses it only through `.get(...)`, so every consulted
entry beyond the two identifiers is optional. -/
structure RespRec where
  document_id : String
  control_id : String
  status : Option ProcessingStatus
  confidence : Option ℚ
  result : Option String
  error_message : Option String
deriving DecidableEq, Repr

/-- Embeds `ControlService.list_controls`
(`app/modules/controls/service.py` lines 71-88): keep the control when
`include_inactive or control.is_active`, then sort by `created_at`
descending. -/
def list_controls (stored : List ControlRec) (include_inactive : Bool) : List ControlRec :=
  sortByDesc (fun c => c.created_at)
    (stored.filter (fun control => include_inactive || control.is_active))

/-- Embeds `ControlService.get_active_controls`
(`app/modules/controls/service.py` lines 143-145). -/
def get_active_controls (stored : List ControlRec) : List ControlRec :=
  list_controls stored false

/-- The composite lookup key `f"{document_id}_{control_id}"` of
`TabularService.get_tabular_view` (`app/modules/tabular/service.py` lines
44, 54). -/
def compositeKey (document_id control_id : String) : String :=
  document_id ++ "_" ++ control_id

/-- The composite key of a stored response record. -/
def RespRec.key (r : RespRec) : String := compositeKey r.document_id r.control_id

/-- Python dictionary assignment `m[k] = v`: replace the binding in place if
the key is present, otherwise append it. -/
def alInsert (k : String) (v : RespRec) : List (String × RespRec) → List (String × RespRec)
  | [] => [(k, v)]
  | (k', v') :: rest => if k' = k then (k, v) :: rest else (k', v') :: alInsert k v rest

/-- Python dictionary lookup `m.get(k)`. -/
def alGet (k : String) : List (String × RespRec) → Option RespRec
  | [] => none
  | (k', v') :: rest => if k' = k then some v' else alGet k rest

/-- Embeds the `response_map` construction of `TabularService.get_tabular_view`
(`app/modules/tabular/service.py` lines 42-45): insert every response under
its composite key, later records overwriting earlier ones. -/
def buildResponseMap (ai_responses : List RespRec) : List (String × RespRec) :=
  ai_responses.foldl (fun m r => alInsert r.key r m) []

/-- A validated `AIResponseResponse` (`app/schemas.py` lines 234-288):
`id`, `control_id`, `document_id`, `status` and `created_at` are required,
everything else optional.  The `citations` entries are modelled by their
mandatory `source` strings. -/
structure AIResponseRecord where
  id : String
  control_id : String
  document_id : String
  status : ProcessingStatus
  created_at : ℕ
  response_text : Option String
  confidence_score : Option ℚ
  citations : Option (List String)
  tokens_used : Option ℕ
  processing_time_ms : Option ℕ
  error_message : Option String
deriving DecidableEq, Repr

/-- The keyword arguments of an `AIResponseResponse(...)` constructor call:
`none` means the keyword was not passed; `extras` lists keywords that are not
fields of the schema.  `error_message` is doubly optional because the call
sites pass the keyword explicitly with value `None`. -/
structure AIResponseResponseArgs where
  id : Option String
  control_id : Option String
  document_id : Option String
  status : Option ProcessingStatus
  created_at : Option ℕ
  response_text : Option String
  confidence_score : Option ℚ
  citations : Option (List String)
  tokens_used : Option ℕ
  processing_time_ms : Option ℕ
  error_message : Option (Option String)
  extras : List String
deriving Repr

/-- Embeds pydantic construction of `AIResponseResponse` under the
`BaseSchema` config (`app/schemas.py` lines 28-47, 234-276):
`extra='forbid'` rejects unknown keywords, the required fields must be
present, and `tokens_used` / `processing_time_ms` must be positive when
given, `confidence_score` within [0, 1].  Pydantic reports all violations
together; the model reports the first in this fixed order, which is enough
since any violation raises. -/
def validateAIResponseResponse (args : AIResponseResponseArgs) :
    Except String AIResponseRecord :=
  if args.extras ≠ [] then
    .error "ValidationError: AIResponseResponse got unexpected keyword arguments"
  else
    match args.id, args.control_id, args.document_id, args.status, args.created_at with
    | some i, some cid, some did, some st, some ca =>
      if args.tokens_used.all (fun n => 0 < n) &&
          args.processing_time_ms.all (fun n => 0 < n) &&
          args.confidence_score.all (fun c => 0 ≤ c && c ≤ 1) then
        .ok { id := i, control_id := cid, document_id := did, status := st,
              created_at := ca, response_text := args.response_text,
              confidence_score := args.confidence_score, citations := args.citations,
              tokens_used := args.tokens_used,
              processing_time_ms := args.processing_time_ms,
              error_message := args.error_message.getD none }
      else .error "ValidationError: AIResponseResponse field value out of range"
    | _, _, _, _, _ =>
      .error "ValidationError: AIResponseResponse missing required fields"

/-- A validated `CellResponse` (`app/schemas.py` lines 330-349):
`document_id`, `control_id`, `document_filename`, `control_title` and
`status` are required; `ai_response` is the only optional field. -/
structure CellRec where
  document_id : String
  control_id : String
  document_filename : String
  control_title : String
  ai_response : Option AIResponseRecord
  status : ProcessingStatus
deriving DecidableEq, Repr

/-- The keyword arguments of a `CellResponse(...)` constructor call; `extras`
lists keywords that are not fields of the schema (their values cannot affect
the `extra='forbid'` rejection and are not modelled). -/
structure CellResponseArgs where
  document_id : Option String
  control_id : Option String
  document_filename : Option String
  control_title : Option String
  ai_response : Option (Option AIResponseRecord)
  status : Option ProcessingStatus
  extras : List String
deriving Repr

/-- Embeds pydantic construction of `CellResponse` under the `BaseSchema`
config: `extra='forbid'` rejects unknown keywords and the required fields
must be present.  The regular-expression constraints on `FileName` and
`ControlTitle` are not modelled; no call site in the source reaches them. -/
def validateCellResponse (args : CellResponseArgs) : Except String CellRec :=
  if args.extras ≠ [] then
    .error "ValidationError: CellResponse got unexpected keyword arguments"
  else
    match args.document_id, args.control_id, args.document_filename,
        args.control_title, args.status with
    | some did, some cid, some fn, some ct, some st =>
      .ok { document_id := did, control_id := cid, document_filename := fn,
            control_title := ct, ai_response := args.ai_response.getD none,
            status := st }
    | _, _, _, _, _ =>
      .error "ValidationError: CellResponse missing required fields"

/-- `TableRow` (`app/schemas.py` lines 352-364): one document with its cells.
Stored documents enter the embedding already validated, so the
`DocumentResponse.model_validate(document)` step of the row constructor is
the identity here, as with the stored controls and responses collections. -/
structure TableRowRec where
  document : DocRec
  cells : List CellRec
deriving DecidableEq, Repr

/-- `TabularViewResponse` (`app/schemas.py` lines 382-402). -/
structure TabularViewRec where
  controls : List ControlRec
  documents : List DocRec
  rows : List TableRowRec
  processing_count : ℕ
deriving DecidableEq, Repr

/-- The inner loop body of `TabularService.get_tabular_view`
(`app/modules/tabular/service.py` lines 53-79), threading the cell list and
the table-wide `processing_count` accumulator.  When the composite key is
found, the `CellResponse(...)` call passes `confidence`, `result` and
`error_message`, none of which is a field of the schema; when it is absent,
the call passes only `control_id`, `document_id` and `status`.  Either way
the required `document_filename` and `control_title` are never passed, so
the constructor raises and the exception propagates out of the loop. -/
def cellStep (response_map : List (String × RespRec)) (document : DocRec)
    (cacc : List CellRec × ℕ) (control : ControlRec) :
    Except String (List CellRec × ℕ) :=
  match alGet (compositeKey document.id control.id) response_map with
  | some response =>
    let status := response.status.getD .pending
    let count := if status.is_active_status then cacc.2 + 1 else cacc.2
    match validateCellResponse
        { document_id := some document.id
          control_id := some control.id
          document_filename := none
          control_title := none
          ai_response := none
          status := some status
          extras := ["confidence", "result", "error_message"] } with
    | .ok cell => .ok (cacc.1 ++ [cell], count)
    | .error e => .error e
  | none =>
    match validateCellResponse
        { document_id := some document.id
          control_id := some control.id
          document_filename := none
          control_title := none
          ai_response := none
          status := some .pending
          extras := [] } with
    | .ok cell => .ok (cacc.1 ++ [cell], cacc.2)
    | .error e => .error e

/-- The outer loop body of `TabularService.get_tabular_view`
(`app/modules/tabular/service.py` lines 51-86). -/
def rowStep (response_map : List (String × RespRec)) (controls : List ControlRec)
    (acc : List TableRowRec × ℕ) (document : DocRec) :
    Except String (List TableRowRec × ℕ) := do
  let cellsCount ← controls.foldlM (cellStep response_map document) ([], acc.2)
  pure (acc.1 ++ [{ document := document, cells := cellsCount.1 }], cellsCount.2)

/-- Embeds `TabularService.get_tabular_view`
(`app/modules/tabular/service.py` lines 22-92).  A raised `ValidationError`
from a cell constructor aborts the whole call; when the loops complete, the
final `TabularViewResponse(controls=..., rows=..., processing_count=...)`
constructor call on lines 88-92 passes no `documents` argument, so that
field keeps its declared default `[]` (`app/schemas.py` line 385). -/
def get_tabular_view (stored_controls : List ControlRec)
    (stored_documents : List DocRec) (ai_responses : List RespRec) :
    Except String TabularViewRec := do
  let controls := get_active_controls stored_controls
  let documents := sortByDesc (fun d => d.created_at) stored_documents
  let response_map := buildResponseMap ai_responses
  let rowsCount ← documents.foldlM (rowStep response_map controls) ([], 0)
  pure { controls := controls
         documents := []
         rows := rowsCount.1
         processing_count := rowsCount.2 }

/-- Embeds `TableRow.completion_percentage` (`app/schemas.py` lines 357-364). -/
def completion_percentage (row : TableRowRec) : ℚ :=
  if row.cells = [] then 0
  else
    let completed := row.cells.countP (fun cell => cell.status == .completed)
    pyRound1 (((completed : ℚ) / row.cells.length) * 100)

/-- Embeds `TabularViewResponse.total_cells` (`app/schemas.py` lines 389-393). -/
def total_cells (v : TabularViewRec) : ℕ :=
  v.controls.length * v.documents.length

/-- Embeds `TabularViewResponse.overall_completion_percentage`
(`app/schemas.py` lines 395-402). -/
def overall_completion_percentage (v : TabularViewRec) : ℚ :=
  if total_cells v = 0 then 100
  else
    let total_completed : ℚ :=
      (v.rows.map (fun row => completion_percentage row * row.cells.length / 100)).sum
    if 0 < total_cells v then pyRound1 (total_completed / (total_cells v : ℚ) * 100) else 0

/-- The dictionary returned by `TabularService.get_processing_status`
(`app/modules/tabular/service.py` lines 123-131). -/
structure StatusSummary where
  total_possible_combinations : ℕ
  total_processed : ℕ
  currently_processing : ℕ
  status_breakdown : ProcessingStatus → ℕ
  completion_percentage : ℚ

/-- Embeds `TabularService.get_processing_status`
(`app/modules/tabular/service.py` lines 94-131): histogram of response
statuses, `total_possible = len(controls) * len(documents)` over the
active controls (`list_controls()` is called with its default
`include_inactive=False`), and `completion_percentage` of `0` when
`total_possible` is `0`. -/
def get_processing_status (stored_controls : List ControlRec)
    (documents : List DocRec) (ai_responses : List RespRec) : StatusSummary :=
  let status_counts : ProcessingStatus → ℕ :=
    fun s => ai_responses.countP (fun r => r.status == some s)
  let controls := list_controls stored_controls false
  let total_possible := controls.length * documents.length
  let total_processed := ai_responses.length
  let processing_count :=
    status_counts .pending + status_counts .processing + status_counts .regenerating
  { total_possible_combinations := total_possible
    total_processed := total_processed
    currently_processing := processing_count
    status_breakdown := status_counts
    completion_percentage :=
      if 0 < total_possible then (total_processed : ℚ) / total_possible * 100 else 0 }

/-- Embeds the `validate_prompt_format` field validator of `ControlBase` /
`ControlUpdate` (`app/schemas.py` lines 88-95 and 121-129): strip, then
append `?` unless the prompt already ends with `?`, `.` or `!`. -/
def formatPrompt (v : String) : String :=
  let v := strTrim v
  if strEndsWith v "?" || strEndsWith v "." || strEndsWith v "!" then v else v ++ "?"

/-- The condition of `validate_title_prompt_consistency`
(`app/schemas.py` lines 97-102): the record is rejected when
`title.lower().strip() == prompt.lower().strip()`. -/
def violates_title_prompt (c : ControlRec) : Bool :=
  strTrim (strLower c.title) == strTrim (strLower c.prompt)

/-- A validated `ControlUpdate` (`app/schemas.py` lines 115-139): every field
optional, `none` meaning not provided; a provided prompt has already passed
through `formatPrompt`. -/
structure ControlUpdateRec where
  title : Option String
  description : Option String
  prompt : Option String
  is_active : Option Bool
deriving DecidableEq, Repr

/-- Builds a `ControlUpdateRec` from raw input, applying the
`validate_prompt_format` field validator to a provided prompt. -/
def mkControlUpdate (title description prompt : Option String)
    (is_active : Option Bool) : ControlUpdateRec :=
  { title := title
    description := description
    prompt := prompt.map formatPrompt
    is_active := is_active }

/-- The merge `control.model_copy(update=control_data.model_dump(exclude_unset=True))`
of `ControlService.update_control` (`app/modules/controls/service.py` lines
101-102): only provided fields replace the stored ones. -/
def mergeControl (control : ControlRec) (u : ControlUpdateRec) : ControlRec :=
  { control with
    title := u.title.getD control.title
    description := u.description.or control.description
    prompt := u.prompt.getD control.prompt
    is_active := u.is_active.getD control.is_active }

/-- Outcome of `ControlService.update_control`: not found, a pydantic
`ValidationError`, or the updated control. -/
inductive UpdateOutcome
  | notFound
  | validationError (msg : String)
  | updated (c : ControlRec)
deriving DecidableEq, Repr

/-- The stored control collection, keyed by control id as under
`controls/{id}/metadata.json`. -/
abbrev ControlStore := List (String × ControlRec)

/-- Embeds `ControlService.get_control` over the stored collection. -/
def storeGet (store : ControlStore) (control_id : String) : Option ControlRec :=
  (store.find? (fun kv => kv.1 == control_id)).map (fun kv => kv.2)

/-- Embeds `storage_service.upsert_metadata` for a control record. -/
def storeUpsert (store : ControlStore) (control_id : String) (c : ControlRec) : ControlStore :=
  if store.any (fun kv => kv.1 == control_id) then
    store.map (fun kv => if kv.1 == control_id then (control_id, c) else kv)
  else store ++ [(control_id, c)]

/-- Embeds `ControlService.update_control`
(`app/modules/controls/service.py` lines 90-112).  The merge via
`model_copy(update=...)` runs no validators, but the subsequent
`updated_control.updated_at = datetime.utcnow()` assignment re-runs the
`validate_title_prompt_consistency` model validator (the schemas set
`validate_assignment=True`), so a merged record whose title and prompt
coincide raises before `upsert_metadata` is reached and the store is left
untouched. -/
def update_control (store : ControlStore) (control_id : String)
    (control_data : ControlUpdateRec) (now : ℕ) : UpdateOutcome × ControlStore :=
  match storeGet store control_id with
  | none => (.notFound, store)
  | some control =>
    let updated_control := { mergeControl control control_data with updated_at := some now }
    if violates_title_prompt updated_control then
      (.validationError "Title and prompt cannot be identical", store)
    else
      (.updated updated_control, storeUpsert store control_id updated_control)

/-- The `or`-chain of the `ControlService.search_controls` comprehension
(`app/modules/controls/service.py` lines 152-157), including Python
short-circuiting: when the query is not a substring of the title, the code
evaluates `control.description.lower()` and an absent description makes the
attribute access fail, modelled as `Except.error`. -/
def searchPredicate (query : String) (control : ControlRec) : Except String Bool :=
  if strContains (strLower control.title) query then .ok control.is_active
  else
    match control.description with
    | none => .error "AttributeError: NoneType object has no attribute lower"
    | some d =>
      .ok ((strContains (strLower d) query || strContains (strLower control.prompt) query)
        && control.is_active)

/-- The list comprehension of `ControlService.search_controls`, evaluated left
to right; the first raising element aborts the whole call. -/
def searchFilter (query : String) : List ControlRec → Except String (List ControlRec)
  | [] => .ok []
  | control :: rest => do
    let keep ← searchPredicate query control
    let tail ← searchFilter query rest
    pure (if keep then control :: tail else tail)

/-- Embeds `ControlService.search_controls`
(`app/modules/controls/service.py` lines 147-158): list all controls
(inactive included), lower the query, then filter. -/
def search_controls (stored : List ControlRec) (query : String) :
    Except String (List ControlRec) :=
  searchFilter (strLower query) (list_controls stored true)

/-- An uploaded file as consumed by `DocumentService`
(`app/services/document_service.py`). -/
structure FileRec where
  filename : String
  size : ℕ
  content_type : String
deriving DecidableEq, Repr

/-- A validated `DocumentResponse` (`app/schemas.py` lines 166-220):
`filename`, `original_filename`, `file_type`, `file_size`, `id`,
`control_id`, `extraction_status` and `created_at` are required. -/
structure DocumentRecord where
  id : String
  control_id : String
  filename : String
  original_filename : String
  file_type : String
  file_size : ℕ
  extraction_status : String
  file_url : Option String
  created_at : ℕ
deriving DecidableEq, Repr

/-- The keyword arguments of a `DocumentResponse(...)` constructor call:
`none` means the keyword was not passed.  `control_id` is doubly optional
because the call site passes the keyword explicitly, possibly with value
`None`, which the non-optional `UUIDStr` field rejects. -/
structure DocumentResponseArgs where
  id : Option String
  control_id : Option (Option String)
  filename : Option String
  original_filename : Option String
  file_type : Option String
  file_size : Option ℕ
  extraction_status : Option String
  file_url : Option String
  created_at : Option ℕ
  extras : List String
deriving Repr

/-- Embeds pydantic construction of `DocumentResponse` under the
`BaseSchema` config: `extra='forbid'` rejects unknown keywords, the required
fields must be present and non-`None`, `file_size` must be positive and at
most 100 MiB, and `file_type` must contain a slash.  The `FileName`
regular-expression constraints are not modelled; no call site in the source
reaches them. -/
def validateDocumentResponse (args : DocumentResponseArgs) :
    Except String DocumentRecord :=
  if args.extras ≠ [] then
    .error "ValidationError: DocumentResponse got unexpected keyword arguments"
  else
    match args.id, args.filename, args.original_filename, args.file_type,
        args.file_size, args.control_id, args.extraction_status, args.created_at with
    | some i, some fn, some ofn, some ft, some fs, some cidv, some es, some ca =>
      match cidv with
      | none => .error "ValidationError: DocumentResponse control_id may not be None"
      | some cid =>
        if 0 < fs && fs ≤ 100 * 1024 * 1024 && ft.data.contains '/' then
          .ok { id := i, control_id := cid, filename := fn, original_filename := ofn,
                file_type := ft, file_size := fs, extraction_status := es,
                file_url := args.file_url, created_at := ca }
        else .error "ValidationError: DocumentResponse field value out of range"
    | _, _, _, _, _, _, _, _ =>
      .error "ValidationError: DocumentResponse missing required fields"

/-- `settings.MAX_FILE_SIZE` (`app/config.py` line 27). -/
def MAX_FILE_SIZE : ℕ := 52428800

/-- `settings.ALLOWED_FILE_TYPES` (`app/config.py` lines 28-35). -/
def ALLOWED_FILE_TYPES : List String :=
  ["application/pdf",
   "application/vnd.openxmlformats-officedocument.spreadsheetml.sheet",
   "application/vnd.ms-excel",
   "text/csv",
   "application/json",
   "text/plain"]

/-- Embeds `DocumentService._validate_file`
(`app/services/document_service.py` lines 114-126). -/
def validate_file (file : FileRec) : Except String Unit :=
  if MAX_FILE_SIZE < file.size then
    .error "File size exceeds maximum allowed size"
  else if !(ALLOWED_FILE_TYPES.contains file.content_type) then
    .error ("File type " ++ file.content_type ++ " not supported")
  else .ok ()

/-- Embeds `DocumentService.upload_document`
(`app/services/document_service.py` lines 24-63): validate the file, then
(with the storage collaborator, an external dependency, assumed to succeed)
construct the `DocumentResponse`.  The constructor call on lines 46-55 never
passes the required `created_at`, and passes `control_id=None` when no
control is given, so it raises; the surrounding try/except wraps any raised
exception as `Failed to upload document: ...`.  The generated UUID and
storage filename are abstracted by `new_id`, the storage URL by `url_of`. -/
def upload_document (new_id url_of : FileRec → String) (control_id : Option String)
    (file : FileRec) : Except String DocumentRecord :=
  match validate_file file with
  | .error e => .error e
  | .ok _ =>
    match validateDocumentResponse
        { id := some (new_id file)
          filename := some (new_id file)
          original_filename := some file.filename
          file_type := some file.content_type
          file_size := some file.size
          file_url := some (url_of file)
          extraction_status := some "pending"
          control_id := some control_id
          created_at := none
          extras := [] } with
    | .ok document => .ok document
    | .error e => .error ("Failed to upload document: " ++ e)

/-- The partitioned result of `DocumentService.upload_multiple_documents`
(`app/services/document_service.py` lines 84-89), generic in the uploaded
document type. -/
structure BatchResult (δ : Type) where
  uploaded_files : List δ
  failed_files : List (String × String)
  total_uploaded : ℕ
  total_failed : ℕ
deriving DecidableEq, Repr

/-- Embeds `DocumentService.upload_multiple_documents`
(`app/services/document_service.py` lines 65-89): each file is uploaded
inside its own try/except, successes and failures are collected
independently in input order. -/
def upload_multiple_documents {δ : Type} (upload : FileRec → Except String δ)
    (files : List FileRec) : BatchResult δ :=
  let acc := files.foldl
    (fun (acc : List δ × List (String × String)) file =>
      match upload file with
      | .ok document => (acc.1 ++ [document], acc.2)
      | .error e => (acc.1, acc.2 ++ [(file.filename, e)]))
    ([], [])
  { uploaded_files := acc.1
    failed_files := acc.2
    total_uploaded := acc.1.length
    total_failed := acc.2.length }

/-- The data extracted from a successful language-model call by
`AIService._generate_ai_response` (`app/services/ai_service.py` lines
89-129). -/
structure GenData where
  response_text : String
  confidence_score : Option ℚ
  tokens_used : Option ℕ
deriving DecidableEq, Repr

/-- Embeds `AIService.process_document`
(`app/services/ai_service.py` lines 19-53).  The try block covers both the
upstream language-model call and the success-branch
`AIResponseResponse(...)` constructor; whatever either raises is caught by
the except branch, which constructs the failed record with
`error_message=str(e)`.  Both constructor calls pass the unknown keyword
`metadata` (the schema field is `response_metadata`), omit the required
`id`, `control_id`, `document_id` and `created_at`, and the except branch
additionally passes `tokens_used=0` and `processing_time_ms=0` against
`PositiveInt | None` fields; an exception raised inside the except branch
propagates to the caller. -/
def process_document (upstream : Except String GenData)
    (processing_time : ℕ) : Except String AIResponseRecord :=
  let attempt : Except String AIResponseRecord :=
    match upstream with
    | .ok response_data =>
      validateAIResponseResponse
        { id := none, control_id := none, document_id := none
          status := some .completed
          created_at := none
          response_text := some response_data.response_text
          confidence_score := response_data.confidence_score
          citations := some []
          tokens_used := response_data.tokens_used
          processing_time_ms := some processing_time
          error_message := some none
          extras := ["metadata"] }
    | .error e => .error e
  match attempt with
  | .ok record => .ok record
  | .error e =>
    validateAIResponseResponse
      { id := none, control_id := none, document_id := none
        status := some .failed
        created_at := none
        response_text := some ""
        confidence_score := some 0
        citations := some []
        tokens_used := some 0
        processing_time_ms := some 0
        error_message := some (some e)
        extras := ["metadata"] }

/-- Sample stored control: active, with a description. -/
def controlA : ControlRec :=
  { id := "c1"
    title := "Vendor risk"
    description := some "Covers vendor risk assessments"
    prompt := "Does the document cover vendor risk?"
    is_active := true
    created_at := 3
    updated_at := none }

/-- Sample stored control whose optional description is absent. -/
def controlNoDesc : ControlRec :=
  { id := "c2"
    title := "Data retention"
    description := none
    prompt := "Is data retention defined?"
    is_active := true
    created_at := 4
    updated_at := none }

/-- Sample stored document. -/
def docA : DocRec := { id := "d1", created_at := 5 }

/-- Sample stored response for the pair (docA, controlA), mid-processing. -/
def respP : RespRec :=
  { document_id := "d1"
    control_id := "c1"
    status := some .processing
    confidence := some (1/2)
    result := some "In progress"
    error_message := none }

/-- Sample control store holding `controlA` under its id. -/
def storeA : ControlStore := [("c1", controlA)]

/-- Sample partial update that renames the control to its own prompt,
violating the title/prompt invariant after the merge. -/
def badUpdate : ControlUpdateRec :=
  mkControlUpdate (some "Does the document cover vendor risk?") none none none

/-- Sample good partial update: a new description only. -/
def goodUpdate : ControlUpdateRec :=
  mkControlUpdate none (some "Expanded description") none none

/-- Sample file accepted by upload validation. -/
def fileA : FileRec := { filename := "report.pdf", size := 100, content_type := "application/pdf" }

/-- Sample file rejected by upload validation: one byte over `MAX_FILE_SIZE`. -/
def fileB : FileRec := { filename := "huge.pdf", size := 52428801, content_type := "application/pdf" }

/-- Sample file accepted by upload validation. -/
def fileC : FileRec := { filename := "notes.txt", size := 50, content_type := "text/plain" }

/-- Sample table row with four cells, exactly one of them completed. -/
def sampleRow4 : TableRowRec :=
  { document := docA
    cells :=
      [{ document_id := "d1", control_id := "c1", document_filename := "a.pdf",
         control_title := "Vendor risk", ai_response := none, status := .completed },
       { document_id := "d1", control_id := "c2", document_filename := "a.pdf",
         control_title := "Data retention", ai_response := none, status := .pending },
       { document_id := "d1", control_id := "c3", document_filename := "a.pdf",
         control_title := "Access control", ai_response := none, status := .failed },
       { document_id := "d1", control_id := "c4", document_filename := "a.pdf",
         control_title := "Encryption", ai_response := none, status := .processing }] }

/-!  Theorems. -/

/-- Claim C4: a transition validates (returning the new status) exactly when
the (from, to) pair is in the legal table of spec section 4.3, and otherwise
fails with an error naming both states; in particular completed to processing
fails while completed to regenerating succeeds. -/
theorem transition_validation_matches_spec_table :
    (∀ cur next : ProcessingStatus,
      (validate_processing_status_transition cur next = .ok next ↔
        (cur, next) ∈ specLegalTransitions) ∧
      ((cur, next) ∉ specLegalTransitions →
        validate_processing_status_transition cur next = .error (cur, next))) ∧
    validate_processing_status_transition .completed .processing =
      .error (.completed, .processing) ∧
    validate_processing_status_transition .completed .regenerating = .ok .regenerating := by
  refine ⟨fun cur next => ?_, by rfl, by rfl⟩
  cases cur <;> cases next <;> simp [validate_processing_status_transition,
    valid_transitions, specLegalTransitions]

/-- Witness for C4 at the concrete pair (completed, processing), which is not
in the spec table. -/
theorem transition_validation_matches_spec_table_witness :
    validate_processing_status_transition .completed .processing =
      .error (.completed, .processing) :=
  (transition_validation_matches_spec_table.1 .completed .processing).2 (by decide)

/-- Claim C6 (divergence witness): an upstream language-model failure does
not come back as a failed AI-response record: the except branch's own
`AIResponseResponse(...)` constructor raises a `ValidationError` (unknown
`metadata` keyword, missing required `id`/`control_id`/`document_id`/
`created_at`, zero `tokens_used` and `processing_time_ms`), and that
exception propagates to the caller; the success branch crashes the same way,
so `process_document` never returns a record at all. -/
theorem process_document_propagates_validation_error :
    (∀ (cause : String) (t : ℕ),
      process_document (.error cause) t =
        .error "ValidationError: AIResponseResponse got unexpected keyword arguments") ∧
    (∀ (response_data : GenData) (t : ℕ),
      process_document (.ok response_data) t =
        .error "ValidationError: AIResponseResponse got unexpected keyword arguments") :=
  ⟨fun _ _ => rfl, fun _ _ => rfl⟩

/-- Claim C2: the tabular view reports 100 percent completion for an empty
table (total_cells = 0), while the processing-status summary reports 0
percent when total_possible is 0 — the two divergent empty-table
conventions. -/
theorem empty_table_completion_conventions :
    (∀ v : TabularViewRec, total_cells v = 0 →
      overall_completion_percentage v = 100) ∧
    (∀ (scs : List ControlRec) (sds : List DocRec) (rs : List RespRec),
      (get_processing_status scs sds rs).total_possible_combinations = 0 →
      (get_processing_status scs sds rs).completion_percentage = 0) := by
  constructor
  · intro v hv
    simp [overall_completion_percentage, hv]
  · intro scs sds rs h
    simp only [get_processing_status] at h ⊢
    simp [h]

/-- Witness for C2 at the empty view (an input on which `get_tabular_view`
succeeds) and the empty summary. -/
theorem empty_table_completion_conventions_witness :
    (get_tabular_view [] [] []).toOption.map overall_completion_percentage =
      some 100 ∧
    (get_processing_status [] [] []).completion_percentage = 0 :=
  ⟨by
    rw [show (get_tabular_view [] [] []).toOption.map overall_completion_percentage =
        some (overall_completion_percentage
          { controls := [], documents := [], rows := [], processing_count := 0 }) from rfl,
      empty_table_completion_conventions.1
        { controls := [], documents := [], rows := [], processing_count := 0 } rfl],
   empty_table_completion_conventions.2 [] [] [] rfl⟩

/-- Claim C7: a row's completion percentage is 100 times the number of
completed cells over the number of cells, rounded to one decimal, 0 for an
empty row; a row of 4 cells with 1 completed yields 25. -/
theorem row_completion_percentage_formula :
    (∀ row : TableRowRec,
      completion_percentage row =
        if row.cells.length = 0 then 0
        else pyRound1
          (100 * ((row.cells.countP (fun cell => cell.status == .completed) : ℚ) /
            row.cells.length))) ∧
    completion_percentage sampleRow4 = 25 ∧
    completion_percentage { document := docA, cells := [] } = 0 := by
  refine ⟨fun row => ?_, ?_, by rfl⟩
  · rw [completion_percentage]
    by_cases h : row.cells = []
    · simp [h]
    · rw [if_neg h, if_neg (by simpa [List.length_eq_zero] using h)]
      ring_nf
  · have hcount :
        sampleRow4.cells.countP (fun cell => cell.status == .completed) = 1 := by decide
    have hne : sampleRow4.cells = [] ↔ False := by decide
    rw [completion_percentage, if_neg hne.mp, hcount]
    have hlen : (sampleRow4.cells.length : ℚ) = 4 := by norm_num [sampleRow4]
    rw [hlen]
    norm_num [pyRound1, roundHalfEven, ratFloor]

/-- The executable floor agrees with the mathematical floor. -/
theorem ratFloor_eq_floor (q : ℚ) : ratFloor q = ⌊q⌋ := Rat.floor_def.symm

/-- Half-even rounding never moves a value up by more than one half. -/
theorem roundHalfEven_le (q : ℚ) : (roundHalfEven q : ℚ) ≤ q + 1/2 := by
  have hfl : ((ratFloor q : ℤ) : ℚ) ≤ q := by
    rw [ratFloor_eq_floor]; exact_mod_cast Int.floor_le q
  have hfu : q < ((ratFloor q : ℤ) : ℚ) + 1 := by
    rw [ratFloor_eq_floor]; exact_mod_cast Int.lt_floor_add_one q
  rw [roundHalfEven]
  split_ifs with h1 h2 h3 <;> push_cast <;> linarith

/-- Half-even rounding never moves a value down by more than one half. -/
theorem le_roundHalfEven (q : ℚ) : q - 1/2 ≤ (roundHalfEven q : ℚ) := by
  have hfl : ((ratFloor q : ℤ) : ℚ) ≤ q := by
    rw [ratFloor_eq_floor]; exact_mod_cast Int.floor_le q
  have hfu : q < ((ratFloor q : ℤ) : ℚ) + 1 := by
    rw [ratFloor_eq_floor]; exact_mod_cast Int.lt_floor_add_one q
  rw [roundHalfEven]
  split_ifs with h1 h2 h3 <;> push_cast <;> linarith

/-- Rounding to two decimals keeps values inside [1/10, 9/10]. -/
theorem pyRound2_bounds {q : ℚ} (h1 : 1/10 ≤ q) (h2 : q ≤ 9/10) :
    1/10 ≤ pyRound2 q ∧ pyRound2 q ≤ 9/10 := by
  have hlo : (q * 100) - 1/2 ≤ (roundHalfEven (q * 100) : ℚ) := le_roundHalfEven _
  have hhi : (roundHalfEven (q * 100) : ℚ) ≤ (q * 100) + 1/2 := roundHalfEven_le _
  have hk10 : (10 : ℤ) ≤ roundHalfEven (q * 100) := by
    have h9 : (9 : ℚ) < (roundHalfEven (q * 100) : ℚ) := by linarith
    have h9z : (9 : ℤ) < roundHalfEven (q * 100) := by exact_mod_cast h9
    omega
  have hk90 : roundHalfEven (q * 100) ≤ (90 : ℤ) := by
    have h91 : (roundHalfEven (q * 100) : ℚ) < 91 := by linarith
    have h91z : roundHalfEven (q * 100) < (91 : ℤ) := by exact_mod_cast h91
    omega
  constructor
  · rw [pyRound2]
    have : (10 : ℚ) ≤ (roundHalfEven (q * 100) : ℚ) := by exact_mod_cast hk10
    linarith
  · rw [pyRound2]
    have : (roundHalfEven (q * 100) : ℚ) ≤ 90 := by exact_mod_cast hk90
    linarith

/-- Claim C9: the locally derived confidence score is the indicator count
difference, normalized by `(raw/total + 1)/2`, clamped to [0.1, 0.9] and
rounded to two decimals; in particular it always lies in [0.1, 0.9]. -/
theorem confidence_score_formula_and_bounds :
    ∀ text : String,
      calculate_confidence_score text =
        pyRound2 (max (1/10) (min (9/10)
          ((((confidence_indicators.countP
                (fun i => strContains (strLower text) (strLower i)) : ℚ) -
              (uncertainty_indicators.countP
                (fun i => strContains (strLower text) (strLower i)) : ℚ)) /
            ((confidence_indicators.length + uncertainty_indicators.length : ℕ) : ℚ) + 1) / 2))) ∧
      1/10 ≤ calculate_confidence_score text ∧
      calculate_confidence_score text ≤ 9/10 := by
  intro text
  refine ⟨rfl, ?_⟩
  have h1 : (1:ℚ)/10 ≤ max (1/10) (min (9/10)
      ((((confidence_indicators.countP
            (fun i => strContains (strLower text) (strLower i)) : ℚ) -
          (uncertainty_indicators.countP
            (fun i => strContains (strLower text) (strLower i)) : ℚ)) /
        ((confidence_indicators.length + uncertainty_indicators.length : ℕ) : ℚ) + 1) / 2)) :=
    le_max_left _ _
  have h2 : max ((1:ℚ)/10) (min (9/10)
      ((((confidence_indicators.countP
            (fun i => strContains (strLower text) (strLower i)) : ℚ) -
          (uncertainty_indicators.countP
            (fun i => strContains (strLower text) (strLower i)) : ℚ)) /
        ((confidence_indicators.length + uncertainty_indicators.length : ℕ) : ℚ) + 1) / 2)) ≤ 9/10 :=
    max_le (by norm_num) (min_le_left _ _)
  exact pyRound2_bounds h1 h2

/-- The accumulator of the batch-upload loop collects successes and failures
in input order, extending whatever was accumulated so far. -/
theorem batch_foldl_spec {δ : Type} (upload : FileRec → Except String δ) :
    ∀ (files : List FileRec) (u0 : List δ) (f0 : List (String × String)),
      files.foldl
        (fun (acc : List δ × List (String × String)) file =>
          match upload file with
          | .ok document => (acc.1 ++ [document], acc.2)
          | .error e => (acc.1, acc.2 ++ [(file.filename, e)]))
        (u0, f0) =
      (u0 ++ files.filterMap (fun f => (upload f).toOption),
       f0 ++ files.filterMap (fun f =>
         match upload f with
         | .ok _ => none
         | .error e => some (f.filename, e))) := by
  intro files
  induction files with
  | nil => simp
  | cons f fs ih =>
    intro u0 f0
    cases h : upload f with
    | ok d => simp [h, ih, Except.toOption]
    | error e => simp [h, ih, Except.toOption]

/-- Computation rule for `Except.toOption` on a success. -/
theorem except_toOption_ok {ε α : Type} (d : α) :
    (Except.ok d : Except ε α).toOption = some d := rfl

/-- Computation rule for `Except.toOption` on a failure. -/
theorem except_toOption_error {ε α : Type} (e : ε) :
    (Except.error e : Except ε α).toOption = none := rfl

/-- Counting by success flag agrees with the length of the success partition. -/
theorem length_filterMap_toOption {δ : Type} (upload : FileRec → Except String δ) :
    ∀ files : List FileRec,
      (files.filterMap (fun f => (upload f).toOption)).length =
        files.countP (fun f => (upload f).toOption.isSome) := by
  intro files
  induction files with
  | nil => rfl
  | cons f fs ih =>
    cases h : upload f with
    | ok d => simp [List.filterMap_cons, List.countP_cons, h, except_toOption_ok, ih]
    | error e => simp [List.filterMap_cons, List.countP_cons, h, except_toOption_error, ih]

/-- Counting by failure flag agrees with the length of the failure partition. -/
theorem length_filterMap_failures {δ : Type} (upload : FileRec → Except String δ) :
    ∀ files : List FileRec,
      (files.filterMap (fun f =>
        match upload f with
        | .ok _ => none
        | .error e => some (f.filename, e))).length =
        files.countP (fun f => !(upload f).toOption.isSome) := by
  intro files
  induction files with
  | nil => rfl
  | cons f fs ih =>
    cases h : upload f with
    | ok d => simp [List.filterMap_cons, List.countP_cons, h, except_toOption_ok, ih]
    | error e => simp [List.filterMap_cons, List.countP_cons, h, except_toOption_error, ih]

/-- Claim C8 (divergence witness): the batch loop does partition successes
and failures independently in input order, with the two totals counting them,
but `upload_document` itself never succeeds: its `DocumentResponse(...)`
constructor omits the required `created_at` (and passes `control_id=None`
when no control is given), so every file of the claimed 3-file scenario
fails -- 0 uploaded and 3 failed instead of the claimed 2 and 1, with no
document persisted. -/
theorem batch_upload_all_files_fail :
    (∀ {δ : Type} (upload : FileRec → Except String δ) (files : List FileRec),
      (upload_multiple_documents upload files).uploaded_files =
        files.filterMap (fun f => (upload f).toOption) ∧
      (upload_multiple_documents upload files).failed_files =
        files.filterMap (fun f =>
          match upload f with
          | .ok _ => none
          | .error e => some (f.filename, e)) ∧
      (upload_multiple_documents upload files).total_uploaded =
        files.countP (fun f => (upload f).toOption.isSome) ∧
      (upload_multiple_documents upload files).total_failed =
        files.countP (fun f => !(upload f).toOption.isSome)) ∧
    (∀ (new_id url_of : FileRec → String) (control_id : Option String)
        (file : FileRec),
      (upload_document new_id url_of control_id file).toOption = none) ∧
    (upload_multiple_documents
        (upload_document (fun f => f.filename) (fun f => f.filename) none)
        [fileA, fileB, fileC]).total_uploaded = 0 ∧
    (upload_multiple_documents
        (upload_document (fun f => f.filename) (fun f => f.filename) none)
        [fileA, fileB, fileC]).total_failed = 3 ∧
    (upload_multiple_documents
        (upload_document (fun f => f.filename) (fun f => f.filename) none)
        [fileA, fileB, fileC]).failed_files =
      [("report.pdf",
        "Failed to upload document: ValidationError: DocumentResponse missing required fields"),
       ("huge.pdf", "File size exceeds maximum allowed size"),
       ("notes.txt",
        "Failed to upload document: ValidationError: DocumentResponse missing required fields")] := by
  refine ⟨fun upload files => ?_, fun new_id url_of control_id file => ?_,
    by decide, by decide, by decide⟩
  · rw [upload_multiple_documents, batch_foldl_spec]
    simp only [List.nil_append]
    exact ⟨trivial, trivial, length_filterMap_toOption upload files,
      length_filterMap_failures upload files⟩
  · rw [upload_document]
    cases hv : validate_file file with
    | error e => rfl
    | ok u => rfl

/-- Claim C5: updating an existing control merges only the provided fields,
stamps `updated_at`, fails with the title/prompt validation error exactly on
the merged record violating the invariant, and on failure leaves the store
untouched. -/
theorem update_control_merge_and_validation :
    ∀ (store : ControlStore) (control_id : String) (u : ControlUpdateRec) (now : ℕ)
      (control updated : ControlRec),
      storeGet store control_id = some control →
      updated = { mergeControl control u with updated_at := some now } →
      (updated.title = u.title.getD control.title ∧
       updated.description = u.description.or control.description ∧
       updated.prompt = u.prompt.getD control.prompt ∧
       updated.is_active = u.is_active.getD control.is_active ∧
       updated.id = control.id ∧
       updated.created_at = control.created_at ∧
       updated.updated_at = some now) ∧
      (violates_title_prompt updated = true →
        update_control store control_id u now =
          (.validationError "Title and prompt cannot be identical", store)) ∧
      (violates_title_prompt updated = false →
        update_control store control_id u now =
          (.updated updated, storeUpsert store control_id updated)) := by
  intro store control_id u now control updated hget hupd
  subst hupd
  refine ⟨⟨rfl, rfl, rfl, rfl, rfl, rfl, rfl⟩, ?_, ?_⟩
  · intro hviol
    simp [update_control, hget, hviol]
  · intro hok
    simp [update_control, hget, hok]

/-- Witness for C5: merging `badUpdate` into `controlA` makes the title equal
the prompt, so the update fails and the store is unchanged. -/
theorem update_control_merge_and_validation_witness :
    update_control storeA "c1" badUpdate 7 =
      (.validationError "Title and prompt cannot be identical", storeA) :=
  (update_control_merge_and_validation storeA "c1" badUpdate 7 controlA
      { mergeControl controlA badUpdate with updated_at := some 7 }
      (by decide) rfl).2.1 (by decide)

/-- Membership is preserved by descending insertion. -/
theorem mem_insertByDesc {α : Type} (key : α → ℕ) (x a : α) :
    ∀ l : List α, a ∈ insertByDesc key x l ↔ a = x ∨ a ∈ l := by
  intro l
  induction l with
  | nil => simp [insertByDesc]
  | cons y ys ih =>
    rw [insertByDesc]
    split_ifs with h
    · simp only [List.mem_cons, ih]
      tauto
    · simp [List.mem_cons]

/-- Membership is preserved by the stable descending sort. -/
theorem mem_sortByDesc {α : Type} (key : α → ℕ) (a : α) :
    ∀ l : List α, a ∈ sortByDesc key l ↔ a ∈ l := by
  intro l
  induction l with
  | nil => simp [sortByDesc]
  | cons x xs ih =>
    rw [sortByDesc, mem_insertByDesc]
    simp [ih]

/-- The search comprehension succeeds on any control list whose members all
carry a description. -/
theorem searchFilter_total (query : String) :
    ∀ cs : List ControlRec, (∀ c ∈ cs, c.description ≠ none) →
      (searchFilter query cs).toOption.isSome = true := by
  intro cs
  induction cs with
  | nil => intro _; rfl
  | cons c rest ih =>
    intro h
    have hc := h c (List.mem_cons_self c rest)
    have hrest := ih (fun x hx => h x (List.mem_cons_of_mem c hx))
    have hpred : ∃ b, searchPredicate query c = .ok b := by
      rw [searchPredicate]
      split_ifs with ht
      · exact ⟨_, rfl⟩
      · cases hd : c.description with
        | none => exact absurd hd hc
        | some d => exact ⟨_, rfl⟩
    obtain ⟨b, hb⟩ := hpred
    cases hrest' : searchFilter query rest with
    | error e => rw [hrest'] at hrest; simp [Except.toOption] at hrest
    | ok l =>
      show (searchFilter query (c :: rest)).toOption.isSome = true
      rw [searchFilter, hb, hrest']
      rfl

/-- Claim C10: search over the controls succeeds whenever every stored
control has a description, and a stored control with an absent description
makes the call fail with the attribute error instead of returning a list. -/
theorem search_controls_requires_descriptions :
    (∀ (stored : List ControlRec) (query : String),
      (∀ c ∈ stored, c.description ≠ none) →
      (search_controls stored query).toOption.isSome = true) ∧
    search_controls [controlNoDesc] "zzz" =
      .error "AttributeError: NoneType object has no attribute lower" := by
  constructor
  · intro stored query h
    rw [search_controls]
    apply searchFilter_total
    intro c hc
    rw [list_controls] at hc
    exact h c (List.mem_of_mem_filter ((mem_sortByDesc _ c _).mp hc))
  · rfl

/-- Witness for C10: searching a store whose single control has a
description succeeds. -/
theorem search_controls_requires_descriptions_witness :
    (search_controls [controlA] "vendor").toOption.isSome = true :=
  search_controls_requires_descriptions.1 [controlA] "vendor" (by decide)

/-- Both branches of the inner loop fail: the cell constructor call can never
satisfy the `CellResponse` schema. -/
theorem cellStep_always_fails (response_map : List (String × RespRec))
    (document : DocRec) (cacc : List CellRec × ℕ) (control : ControlRec) :
    cellStep response_map document cacc control =
      match alGet (compositeKey document.id control.id) response_map with
      | some _ =>
        .error "ValidationError: CellResponse got unexpected keyword arguments"
      | none =>
        .error "ValidationError: CellResponse missing required fields" := by
  rw [cellStep]
  cases alGet (compositeKey document.id control.id) response_map with
  | some response => rfl
  | none => rfl

/-- The inner loop completes only when there is no control to process, and
then it leaves the accumulator untouched. -/
theorem foldlM_cellStep_ok (response_map : List (String × RespRec))
    (document : DocRec) :
    ∀ (controls : List ControlRec) (acc res : List CellRec × ℕ),
      controls.foldlM (cellStep response_map document) acc = .ok res →
      controls = [] ∧ res = acc := by
  intro controls
  cases controls with
  | nil =>
    intro acc res h
    exact ⟨rfl, (Except.ok.injEq _ _ ▸ h.symm : res = acc)⟩
  | cons control rest =>
    intro acc res h
    rw [List.foldlM_cons, cellStep_always_fails] at h
    cases halget : alGet (compositeKey document.id control.id) response_map <;>
      rw [halget] at h <;> exact Except.noConfusion h

/-- A row is appended only with an empty cell list (no control survived the
inner loop). -/
theorem rowStep_ok (response_map : List (String × RespRec))
    (controls : List ControlRec) (acc : List TableRowRec × ℕ) (document : DocRec)
    (res : List TableRowRec × ℕ) :
    rowStep response_map controls acc document = .ok res →
    res = (acc.1 ++ [{ document := document, cells := [] }], acc.2) := by
  rw [rowStep]
  intro h
  cases hf : controls.foldlM (cellStep response_map document) ([], acc.2) with
  | error e =>
    rw [hf] at h
    exact Except.noConfusion h
  | ok cellsCount =>
    obtain ⟨-, hcc⟩ := foldlM_cellStep_ok response_map document controls _ _ hf
    rw [hf] at h
    subst hcc
    exact (Except.ok.inj h).symm

/-- Whenever the outer loop completes, every row it appended carries an empty
cell list. -/
theorem foldlM_rowStep_rows (response_map : List (String × RespRec))
    (controls : List ControlRec) :
    ∀ (documents : List DocRec) (acc res : List TableRowRec × ℕ),
      (∀ row ∈ acc.1, row.cells = []) →
      documents.foldlM (rowStep response_map controls) acc = .ok res →
      ∀ row ∈ res.1, row.cells = [] := by
  intro documents
  induction documents with
  | nil =>
    intro acc res hpre h
    have hra : acc = res := Except.ok.inj h
    subst hra
    exact hpre
  | cons document rest ih =>
    intro acc res hpre h
    rw [List.foldlM_cons] at h
    cases hstep : rowStep response_map controls acc document with
    | error e =>
      rw [hstep] at h
      exact Except.noConfusion h
    | ok acc2 =>
      rw [hstep] at h
      have hacc2 := rowStep_ok response_map controls acc document acc2 hstep
      subst hacc2
      refine ih _ res ?_ h
      intro row hrow
      rcases List.mem_append.mp hrow with hold | hnew
      · exact hpre row hold
      · rw [List.mem_singleton.mp hnew]

/-- Claim C3 (divergence witness): the tabular view never emits a cell.  The
synthetic-pending branch of the source omits the required
`document_filename` and `control_title` keywords and raises, the
found-response branch additionally passes the unknown `confidence`, `result`
and `error_message` keywords and raises, and any view that is returned at
all carries only rows with empty cell lists -- so no cell ever carries a
response status and `processing_count` never counts an active cell. -/
theorem tabular_cells_never_emitted :
    get_tabular_view [controlA] [docA] [] =
      .error "ValidationError: CellResponse missing required fields" ∧
    get_tabular_view [controlA] [docA] [respP] =
      .error "ValidationError: CellResponse got unexpected keyword arguments" ∧
    (∀ (stored_controls : List ControlRec) (stored_documents : List DocRec)
        (ai_responses : List RespRec) (v : TabularViewRec),
      get_tabular_view stored_controls stored_documents ai_responses = .ok v →
      v.rows.all (fun row => row.cells.isEmpty) = true) := by
  refine ⟨rfl, rfl, ?_⟩
  intro stored_controls stored_documents ai_responses v h
  rw [get_tabular_view] at h
  cases hf : (sortByDesc (fun d => d.created_at) stored_documents).foldlM
      (rowStep (buildResponseMap ai_responses) (get_active_controls stored_controls))
      ([], 0) with
  | error e =>
    rw [hf] at h
    exact Except.noConfusion h
  | ok rowsCount =>
    rw [hf] at h
    have hv : v.rows = rowsCount.1 := by
      rw [(Except.ok.inj h).symm]
    have hempty := foldlM_rowStep_rows (buildResponseMap ai_responses)
      (get_active_controls stored_controls) _ _ _ (by intro row hrow; cases hrow) hf
    rw [List.all_eq_true]
    intro row hrow
    simp [List.isEmpty_iff, hempty row (hv ▸ hrow)]

/-- Witness for C3: a successful view (here: no documents) has no cells. -/
theorem tabular_cells_never_emitted_witness :
    ({ controls := [controlA], documents := [], rows := [], processing_count := 0 } :
      TabularViewRec).rows.all (fun row => row.cells.isEmpty) = true :=
  tabular_cells_never_emitted.2.2 [controlA] [] [] _ rfl

/-- Claim C1 (divergence witness): at one active control and one document
with no responses the source raises a `ValidationError` at the first
`CellResponse` construction and returns no view at all, so the claimed
`total_cells = len(controls) * len(documents) = 1` is never produced; on the
inputs where the call does return (an empty document list), `total_cells` is
`0` because the `TabularViewResponse` constructor is given no `documents`
argument. -/
theorem tabular_view_crashes_before_total_cells :
    get_tabular_view [controlA] [docA] [] =
      .error "ValidationError: CellResponse missing required fields" ∧
    get_tabular_view [controlA] [] [] =
      .ok { controls := [controlA], documents := [], rows := [], processing_count := 0 } ∧
    total_cells
      { controls := [controlA], documents := [], rows := [], processing_count := 0 } = 0 :=
  ⟨rfl, rfl, rfl⟩

end Tally
